import Mathlib

/-!
Shallow embedding of `src/ns-thingy.ino` (Nightscout display firmware).

Modelling conventions:
* Arduino `String` is modelled as `List Char` (the firmware only uses
  ASCII case-insensitive comparison and prefix tests, both of which are
  ASCII operations on `String`).
* C `float` values (`bg`, `delta`, threshold raw values) are modelled as
  exact rationals `ℚ`; none of the verified properties depends on binary
  floating-point rounding.
* `unsigned long long` timestamps are modelled as `Nat` with explicit
  64-bit wraparound (`sub64`) where subtraction occurs.
* HTTP and JSON I/O is modelled by passing the (already parsed or failed)
  response as an explicit argument; the JSON document shape mirrors the
  fields the firmware reads, with `Option` for `containsKey` checks.
* Display/LED drawing primitives are abstracted to the data they render
  (`DisplayFrame`, `LedColor`); the pixel-level calls carry no logic.
-/

namespace NsThingy

/-! ### Timing constants (ns-thingy.ino lines 21-24) -/

def DATA_FETCH_INTERVAL_MS : Nat := 30 * 1000
def STATUS_FETCH_INTERVAL_MS : Nat := 60 * 60 * 1000
def DISPLAY_UPDATE_INTERVAL_MS : Nat := 10 * 1000
def STALE_DATA_THRESHOLD_MS : Nat := 13 * 60 * 1000

/-! ### 64-bit unsigned arithmetic -/

def U64 : Nat := 2 ^ 64

/-- Subtraction `a - b` in `unsigned long long` arithmetic (wraps modulo `2^64`). -/
def sub64 (a b : Nat) : Nat := (a % U64 + (U64 - b % U64)) % U64

/-! ### ASCII string operations used by Arduino `String` -/

/-- ASCII lower-casing of one character (Arduino `tolower`). -/
def asciiLower (c : Char) : Char :=
  if 65 ≤ c.toNat ∧ c.toNat ≤ 90 then Char.ofNat (c.toNat + 32) else c

/-- Arduino `String::equalsIgnoreCase` (ASCII case-insensitive equality). -/
def equalsIgnoreCase (a b : List Char) : Bool :=
  a.map asciiLower == b.map asciiLower

/-- Arduino `String::startsWith` (case-sensitive prefix test). -/
def stringStartsWith (s p : List Char) : Bool :=
  List.isPrefixOf p s

/-! ### Application state: the global mutable variables of the sketch -/

structure AppState where
  /-- Global `lowUrgent` (default 55). -/
  lowUrgent : Int
  /-- Global `lowWarning` (default 70). -/
  lowWarning : Int
  /-- Global `highWarning` (default 180). -/
  highWarning : Int
  /-- Global `highUrgent` (default 240). -/
  highUrgent : Int
  /-- Global `lastDataFetchTime` (0 = never). -/
  lastDataFetchTime : Nat
  /-- Global `lastStatusFetchTime` (0 = never). -/
  lastStatusFetchTime : Nat
  /-- Global `lastDisplayUpdateTime`. -/
  lastDisplayUpdateTime : Nat
  /-- Global `lastUpdate`: board time of last accepted reading (0 = never). -/
  lastUpdate : Nat
  /-- Global `lastTimestamp`: Nightscout `mills` of last accepted reading (0 = never). -/
  lastTimestamp : Nat
  /-- Global `bg`: latest glucose value in mg/dL. -/
  bg : ℚ
  /-- Global `delta`: latest delta in mg/dL. -/
  delta : ℚ
  /-- Global `trend`: latest trend code string. -/
  trend : List Char
  /-- Config field `mmol` display preference. -/
  mmol : Bool
  /-- Config field `use_led`. -/
  useLed : Bool
  deriving Repr, DecidableEq

/-! ### JSON documents (only the fields the firmware reads) -/

/-- One element of `bgnow.sgvs`. -/
structure Sgv where
  mgdl : ℚ
  direction : List Char
  deriving Repr, DecidableEq

/-- The `bgnow` object of `/api/v2/properties.json`.
`sgvs = none` models a `sgvs` key that is absent or not a JSON array. -/
structure BgNow where
  mills : Nat
  sgvs : Option (List Sgv)
  deriving Repr, DecidableEq

/-- Parsed `/api/v2/properties.json` document.
`bgnow = none` models a missing `bgnow` key; `deltaMgdl` is
`doc["delta"]["mgdl"]` (ArduinoJson yields 0 when absent). -/
structure DataDoc where
  bgnow : Option BgNow
  deltaMgdl : ℚ
  deriving Repr, DecidableEq

/-- The `settings.thresholds` object; `none` fields model absent keys,
`some q` a present JSON number. -/
structure Thresholds where
  bgHigh : Option ℚ
  bgTargetTop : Option ℚ
  bgTargetBottom : Option ℚ
  bgLow : Option ℚ
  deriving Repr, DecidableEq

/-- The `settings` object of `/api/v1/status.json`; `units` is read with
`as<String>` (an absent key yields a non-"mmol" string). -/
structure Settings where
  thresholds : Option Thresholds
  units : List Char
  deriving Repr, DecidableEq

/-- Parsed `/api/v1/status.json` document. -/
structure StatusDoc where
  settings : Option Settings
  deriving Repr, DecidableEq

/-- Outcome of one HTTP GET as seen by the sketch: a non-OK HTTP code,
a JSON parse failure, or a parsed document. -/
inductive HttpResult (α : Type) where
  | httpError (code : Int)
  | parseError
  | ok (doc : α)
  deriving Repr, DecidableEq

/-! ### ArduinoJson numeric conversions -/

/-- Behavior of `as<int>()` on a JSON number: C cast from double to int,
truncation toward zero. -/
def asInt (q : ℚ) : Int := if q < 0 then q.ceil else q.floor

/-- C `round`: round half away from zero. -/
def cRound (q : ℚ) : Int :=
  if q < 0 then -(Rat.floor (-q + 1/2)) else Rat.floor (q + 1/2)

/-! ### `fetchStatus` (ns-thingy.ino lines 213-278)

Returns the C++ `bool` result together with the state after the call.
The WiFi status at the `WiFi.status()` check is passed as `connected`;
the HTTP+parse outcome as `resp`. -/

def fetchStatus (connected : Bool) (resp : HttpResult StatusDoc)
    (st : AppState) : Bool × AppState :=
  if connected = false then (false, st)
  else
    match resp with
    | .httpError _ => (false, st)
    | .parseError => (false, st)
    | .ok doc =>
      match doc.settings with
      | none => (true, st)
      | some settings =>
        match settings.thresholds with
        | none => (true, st)
        | some th =>
          match th.bgHigh, th.bgTargetTop, th.bgTargetBottom, th.bgLow with
          | some bh, some btt, some btb, some bl =>
            let highUrgent := asInt bh
            let highWarning := asInt btt
            let lowWarning := asInt btb
            let lowUrgent := asInt bl
            if equalsIgnoreCase settings.units "mmol".data ∨
               equalsIgnoreCase settings.units "mmol/L".data then
              (true, { st with
                highUrgent := cRound ((highUrgent : ℚ) * 18),
                highWarning := cRound ((highWarning : ℚ) * 18),
                lowWarning := cRound ((lowWarning : ℚ) * 18),
                lowUrgent := cRound ((lowUrgent : ℚ) * 18) })
            else
              (true, { st with
                highUrgent := highUrgent, highWarning := highWarning,
                lowWarning := lowWarning, lowUrgent := lowUrgent })
          | _, _, _, _ => (true, st)

/-! ### `fetchData` (ns-thingy.ino lines 280-338)

The result is refined into the branch taken (observable through the
serial log messages); `fetchDataOk` recovers the C++ `bool` return
value. `nowMs` is the `millis()` value read at `lastUpdate = millis()`. -/

inductive UpdateResult where
  /-- Early return when `WiFi.status() != WL_CONNECTED` (false). -/
  | noWifi
  /-- non-OK HTTP code (false). -/
  | httpError
  /-- Failure of `deserializeJson` (false). -/
  | parseError
  /-- Missing `bgnow`/`sgvs`, non-array, or empty (false). -/
  | malformed
  /-- Duplicate `mills` equal to `lastTimestamp`: "BG data is the same as last fetch." (true). -/
  | unchanged
  /-- new `mills` but `bg ≤ 30`: "Invalid BG value (error?)." (true). -/
  | invalid
  /-- Accepted reading: "New BG data received." (true). -/
  | updated
  deriving Repr, DecidableEq

/-- The C++ `bool` returned by `fetchData` for each branch. -/
def fetchDataOk : UpdateResult → Bool
  | .noWifi => false
  | .httpError => false
  | .parseError => false
  | .malformed => false
  | .unchanged => true
  | .invalid => true
  | .updated => true

def fetchData (connected : Bool) (resp : HttpResult DataDoc) (nowMs : Nat)
    (st : AppState) : UpdateResult × AppState :=
  if connected = false then (.noWifi, st)
  else
    match resp with
    | .httpError _ => (.httpError, st)
    | .parseError => (.parseError, st)
    | .ok doc =>
      match doc.bgnow with
      | none => (.malformed, st)
      | some bgnow =>
        match bgnow.sgvs with
        | none => (.malformed, st)
        | some sgvs =>
          match sgvs with
          | [] => (.malformed, st)
          | sgv0 :: _ =>
            if bgnow.mills ≠ st.lastTimestamp then
              let bg := sgv0.mgdl
              let delta := doc.deltaMgdl
              let trend := sgv0.direction
              if bg > 30 then
                (.updated, { st with
                  bg := bg, delta := delta, trend := trend,
                  lastTimestamp := bgnow.mills, lastUpdate := nowMs })
              else
                (.invalid, { st with bg := bg, delta := delta, trend := trend })
            else
              (.unchanged, st)

/-! ### Presentation helpers (ns-thingy.ino lines 367-459) -/

/-- Staleness flag `isStale` computed in `updateBGValue`:
`(millis() - lastUpdate) > STALE_DATA_THRESHOLD_MS` in 64-bit
unsigned arithmetic. -/
def isStale (nowMs lastUpdate : Nat) : Bool :=
  decide (sub64 nowMs lastUpdate > STALE_DATA_THRESHOLD_MS)

/-- Mapping `getTrendArrowRotation` (lines 446-455); `-1` is the no-arrow sentinel. -/
def getTrendArrowRotation (trend : List Char) : Int :=
  if equalsIgnoreCase trend "DoubleUp".data then 0
  else if equalsIgnoreCase trend "SingleUp".data then 0
  else if equalsIgnoreCase trend "FortyFiveUp".data then 45
  else if equalsIgnoreCase trend "Flat".data then 90
  else if equalsIgnoreCase trend "FortyFiveDown".data then 135
  else if equalsIgnoreCase trend "SingleDown".data then 180
  else if equalsIgnoreCase trend "DoubleDown".data then 180
  else -1

/-- Predicate `isDoubleTrendArrow` (lines 457-459). -/
def isDoubleTrendArrow (trend : List Char) : Bool :=
  stringStartsWith trend "Double".data

/-! ### `updateDisplay` / `updateLED` (lines 340-365, 413-429, 467-480)

Drawing is abstracted to the data rendered: either the
"Waiting for data..." message, or a frame carrying the glucose value,
staleness (grey + strikethrough), delta, unit mode, the minutes-ago text
(`none` renders as "?"), and the trend arrow (rotation plus whether the
secondary offset glyph for Double trends is drawn). -/

inductive DisplayFrame where
  | waiting
  | frame (bg : ℚ) (stale : Bool) (delta : ℚ) (mmol : Bool)
      (minutesAgo : Option Nat) (arrow : Option (Int × Bool))
  deriving Repr, DecidableEq

def updateDisplay (nowMs : Nat) (st : AppState) : DisplayFrame :=
  if st.lastTimestamp = 0 then .waiting
  else
    let stale := isStale nowMs st.lastUpdate
    let minutesAgo := if st.lastUpdate > 0
      then some (sub64 nowMs st.lastUpdate / 60000) else none
    let rot := getTrendArrowRotation st.trend
    .frame st.bg stale st.delta st.mmol minutesAgo
      (if rot ≥ 0 then some (rot, isDoubleTrendArrow st.trend) else none)

inductive LedColor where
  | red
  | yellow
  | green
  deriving Repr, DecidableEq

/-- Function `updateLED`: the color command issued (through `setLEDColor`, which
itself is a no-op when `use_led` is disabled); `none` means no
`setLEDColor` call is made at all. -/
def updateLED (st : AppState) : Option LedColor :=
  if st.lastTimestamp = 0 then none
  else if st.bg < (st.lowUrgent : ℚ) ∨ st.bg > (st.highUrgent : ℚ) then some .red
  else if st.bg < (st.lowWarning : ℚ) ∨ st.bg > (st.highWarning : ℚ) then some .yellow
  else some .green

/-! ### `loop` (ns-thingy.ino lines 103-138)

One scheduler tick. The locals `dataFetchFailed` and `statusFetchFailed`
are declared without initializers (lines 105-106); when the corresponding
poll branch is not taken they are read uninitialized, which in C++ yields
an indeterminate value. That indeterminate stack content is modelled by
the inputs `garbageStatusFlag` / `garbageDataFlag`: the flag holds the
garbage value unless the tick assigns it. -/

structure TickEnv where
  /-- Value of `millis()` at the top of `loop`. -/
  currentTime : Nat
  /-- Whether `WiFi.status() == WL_CONNECTED` at the top of `loop`. -/
  wifiConnected : Bool
  /-- WiFi status after `connectWiFi()` (only relevant when disconnected). -/
  wifiAfterConnect : Bool
  /-- response of the status poll, were it issued this tick. -/
  statusResp : HttpResult StatusDoc
  /-- response of the data poll, were it issued this tick. -/
  dataResp : HttpResult DataDoc
  /-- Value of `millis()` at `lastUpdate = millis()` inside `fetchData`. -/
  dataNowMs : Nat
  /-- indeterminate initial value of the local `statusFetchFailed`. -/
  garbageStatusFlag : Bool
  /-- indeterminate initial value of the local `dataFetchFailed`. -/
  garbageDataFlag : Bool

/-- Guard of the status poll (line 119):
`currentTime - lastStatusFetchTime >= STATUS_FETCH_INTERVAL_MS || lastStatusFetchTime == 0`. -/
def statusDue (t : Nat) (st : AppState) : Bool :=
  decide (sub64 t st.lastStatusFetchTime ≥ STATUS_FETCH_INTERVAL_MS) ||
  decide (st.lastStatusFetchTime = 0)

/-- Guard of the data poll (line 126). -/
def dataDue (t : Nat) (st : AppState) : Bool :=
  decide (sub64 t st.lastDataFetchTime ≥ DATA_FETCH_INTERVAL_MS) ||
  decide (st.lastDataFetchTime = 0)

/-- Elapsed-interval part of the render guard (line 133). -/
def displayDue (t : Nat) (st : AppState) : Bool :=
  decide (sub64 t st.lastDisplayUpdateTime ≥ DISPLAY_UPDATE_INTERVAL_MS)

/-- The status-poll block of `loop` (lines 119-124): state after the
block together with the value the local `statusFetchFailed` holds after
it. When the guard is not due the local keeps its indeterminate initial
value `garbage`. -/
def statusPollStep (t : Nat) (resp : HttpResult StatusDoc) (garbage : Bool)
    (st : AppState) : AppState × Bool :=
  if statusDue t st then
    let r := fetchStatus true resp st
    (if r.1 then { r.2 with lastStatusFetchTime := t } else r.2, !r.1)
  else
    (st, garbage)

/-- The data-poll block of `loop` (lines 126-131). -/
def dataPollStep (t : Nat) (resp : HttpResult DataDoc) (nowMs : Nat)
    (garbage : Bool) (st : AppState) : AppState × Bool :=
  if dataDue t st then
    let r := fetchData true resp nowMs st
    (if fetchDataOk r.1 then { r.2 with lastDataFetchTime := t } else r.2,
     !fetchDataOk r.1)
  else
    (st, garbage)

/-- One iteration of `loop`; returns the state after the tick and whether
`updateDisplay()`/`updateLED()` ran. -/
def loopTick (env : TickEnv) (st : AppState) : AppState × Bool :=
  let t := env.currentTime
  if env.wifiConnected = false then
    if env.wifiAfterConnect then
      let r1 := fetchStatus true env.statusResp st
      let r2 := fetchData true env.dataResp env.dataNowMs r1.2
      ({ r2.2 with lastStatusFetchTime := t, lastDataFetchTime := t }, false)
    else
      (st, false)
  else
    let step1 := statusPollStep t env.statusResp env.garbageStatusFlag st
    let step2 := dataPollStep t env.dataResp env.dataNowMs env.garbageDataFlag step1.1
    if displayDue t step2.1 ∧ step2.2 = false ∧ step1.2 = false then
      ({ step2.1 with lastDisplayUpdateTime := t }, true)
    else
      (step2.1, false)

/-! ### Derived predicates used to state the claims -/

/-- The seven trend codes recognized by `getTrendArrowRotation`. -/
def recognizedTrend (t : List Char) : Bool :=
  equalsIgnoreCase t "DoubleUp".data || equalsIgnoreCase t "SingleUp".data ||
  equalsIgnoreCase t "FortyFiveUp".data || equalsIgnoreCase t "Flat".data ||
  equalsIgnoreCase t "FortyFiveDown".data || equalsIgnoreCase t "SingleDown".data ||
  equalsIgnoreCase t "DoubleDown".data

/-- A data response that passes all precondition checks of `fetchData`:
HTTP OK, JSON parsed, and a non-empty `bgnow.sgvs` array. -/
def hasBgData : HttpResult DataDoc → Bool
  | .ok doc =>
    match doc.bgnow with
    | some b =>
      match b.sgvs with
      | some (_ :: _) => true
      | _ => false
    | none => false
  | _ => false

/-- A status document carrying `settings.thresholds` with all four keys. -/
def hasAllThresholdKeys (doc : StatusDoc) : Bool :=
  match doc.settings with
  | some s =>
    match s.thresholds with
    | some th =>
      th.bgHigh.isSome && th.bgTargetTop.isSome &&
      th.bgTargetBottom.isSome && th.bgLow.isSome
    | none => false
  | none => false

/-! ### Concrete sample values for witnesses and counterexamples -/

/-- The rational 10.5 (= 21/2), a threshold value a mmol/L server can send. -/
def q105 : ℚ := ⟨21, 2, by decide, by decide⟩

/-- A baseline running state: thresholds at their defaults, a reading
`bg = 100, delta = 5, trend = "Flat"` accepted at board time 50 with
Nightscout timestamp 111, and poll timers mid-interval at tick time 20000. -/
def st0 : AppState :=
  { lowUrgent := 55, lowWarning := 70, highWarning := 180, highUrgent := 240,
    lastDataFetchTime := 15000, lastStatusFetchTime := 15000,
    lastDisplayUpdateTime := 5000, lastUpdate := 50, lastTimestamp := 111,
    bg := 100, delta := 5, trend := "Flat".data, mmol := false, useLed := true }

/-- A data payload with a fresh timestamp but an implausible value 20 mg/dL,
carrying delta/trend that differ from those stored in `st0`. -/
def docInvalid : DataDoc :=
  { bgnow := some ⟨222, some [⟨20, "SingleDown".data⟩]⟩, deltaMgdl := -3 }

/-- A data payload whose `mills` equals `st0.lastTimestamp` but whose value,
delta and trend all differ from those stored in `st0`. -/
def docDuplicate : DataDoc :=
  { bgnow := some ⟨111, some [⟨150, "DoubleUp".data⟩]⟩, deltaMgdl := 7 }

/-- A mmol/L status payload whose `bgHigh` is the fractional value 10.5. -/
def docMmol : StatusDoc :=
  { settings := some ⟨some ⟨some q105, some 9, some 4, some 3⟩, "mmol".data⟩ }

/-- A status payload missing the `bgTargetBottom` threshold key. -/
def docPartial : StatusDoc :=
  { settings := some ⟨some ⟨some 300, some 200, none, some 60⟩, "mg/dl".data⟩ }

/-- A connected tick at time 20000 on which both polls are skipped
(the poll timers of `st0` are 5000ms old) and the display interval is due;
`g` is the indeterminate initial value of the local `dataFetchFailed`. -/
def envSkip (g : Bool) : TickEnv :=
  { currentTime := 20000, wifiConnected := true, wifiAfterConnect := true,
    statusResp := .parseError, dataResp := .parseError, dataNowMs := 20000,
    garbageStatusFlag := false, garbageDataFlag := g }

/-- A tick on which WiFi has just reconnected and both polls fail with
an HTTP error. -/
def envReconnectFail : TickEnv :=
  { currentTime := 20000, wifiConnected := false, wifiAfterConnect := true,
    statusResp := .httpError 500, dataResp := .httpError 500, dataNowMs := 20000,
    garbageStatusFlag := false, garbageDataFlag := false }

/-- A connected tick at time 60000 on which the data poll is due and
succeeds with the `docDuplicate` payload while the status poll is skipped. -/
def envDataOk : TickEnv :=
  { currentTime := 60000, wifiConnected := true, wifiAfterConnect := true,
    statusResp := .parseError, dataResp := .ok docDuplicate, dataNowMs := 60000,
    garbageStatusFlag := false, garbageDataFlag := false }

/-! ## Helper lemmas -/

theorem sub64_eq_sub {a b : Nat} (hba : b ≤ a) (ha : a < U64) : sub64 a b = a - b := by
  have hb : b < U64 := Nat.lt_of_le_of_lt hba ha
  unfold sub64 U64 at *
  omega

theorem ratFloor_eq_floor (q : ℚ) : Rat.floor q = ⌊q⌋ := by
  rw [Rat.floor_def, Rat.floor_def']

theorem cRound_intCast (m : ℤ) : cRound (m : ℚ) = m := by
  unfold cRound
  by_cases h : (m : ℚ) < 0
  · rw [if_pos h, ratFloor_eq_floor]
    have he : (-(m : ℚ) + 1/2) = ((-m : ℤ) : ℚ) + 1/2 := by push_cast; ring
    rw [he, Int.floor_int_add]
    norm_num
  · rw [if_neg h, ratFloor_eq_floor, Int.floor_int_add]
    norm_num

theorem cRound_intCast_mul18 (n : ℤ) : cRound ((n : ℚ) * 18) = n * 18 := by
  rw [show ((n : ℚ) * 18) = ((n * 18 : ℤ) : ℚ) by push_cast; ring, cRound_intCast]

/-! ## Claims -/

/-- C7 (corrected part): the staleness predicate computed in
`updateBGValue` is exact and strict — for acquisition time `acq ≤ now`
(both below `2^64`), the reading is stale iff
`now - acq > 13*60*1000` ms, with the exact threshold not stale; and when
no reading was ever acquired (`lastUpdate` still holds its 0 sentinel) it
evaluates to `now > 13*60*1000`, i.e. it is *not* unconditionally true:
it is false until the local uptime itself exceeds the threshold. -/
theorem staleness_strict_boundary (now acq : Nat) (hle : acq ≤ now) (hlt : now < U64) :
    (isStale now acq = true ↔ now - acq > STALE_DATA_THRESHOLD_MS) ∧
    (isStale now 0 = true ↔ now > STALE_DATA_THRESHOLD_MS) := by
  have h1 : sub64 now acq = now - acq := sub64_eq_sub hle hlt
  have h2 : sub64 now 0 = now := by simpa using sub64_eq_sub (Nat.zero_le now) hlt
  constructor <;> simp [isStale, h1, h2]

/-- C7 witness: at `now = 780005`, `acq = 5` the reading (aged exactly
one ms past the 13-minute threshold) is stale, and with no reading ever
acquired staleness at `now = 780005` holds since uptime exceeds the
threshold. -/
theorem staleness_strict_boundary_witness :
    (isStale 780005 5 = true ↔ 780005 - 5 > STALE_DATA_THRESHOLD_MS) ∧
    (isStale 780005 0 = true ↔ 780005 > STALE_DATA_THRESHOLD_MS) :=
  staleness_strict_boundary 780005 5 (by decide) (by decide)

/-- C7 counterexample: the claim that staleness is *unconditionally*
true when no reading was ever acquired fails at local time 1000 ms —
`isStale 1000 0` is false (1000 ms of uptime is below the threshold). -/
theorem staleness_never_acquired_counterexample :
    isStale 1000 0 = false ∧ ¬ (∀ now : Nat, isStale now 0 = true) := by
  refine ⟨by decide, fun h => ?_⟩
  have h1000 := h 1000
  rw [show isStale 1000 0 = false from by decide] at h1000
  exact Bool.false_ne_true h1000

/-- C8: the trend-code mapping is exact: "Flat" ↦ 90°,
"FortyFiveUp" ↦ 45°, "SingleDown" ↦ 180°; every code not matching one of
the seven recognized codes (case-insensitively) maps to the no-arrow
sentinel `-1`; every recognized code maps into {0, 45, 90, 135, 180};
and `isDoubleTrendArrow` holds exactly for the codes having the
(case-sensitive) prefix "Double". -/
theorem trend_arrow_mapping (t : List Char) :
    getTrendArrowRotation "Flat".data = 90 ∧
    getTrendArrowRotation "FortyFiveUp".data = 45 ∧
    getTrendArrowRotation "SingleDown".data = 180 ∧
    (recognizedTrend t = false → getTrendArrowRotation t = -1) ∧
    (recognizedTrend t = true →
      getTrendArrowRotation t = 0 ∨ getTrendArrowRotation t = 45 ∨
      getTrendArrowRotation t = 90 ∨ getTrendArrowRotation t = 135 ∨
      getTrendArrowRotation t = 180) ∧
    (isDoubleTrendArrow t = true ↔ ∃ rest, "Double".data ++ rest = t) := by
  refine ⟨by decide, by decide, by decide, ?_, ?_, ?_⟩
  · intro h
    simp only [recognizedTrend, Bool.or_eq_false_iff] at h
    obtain ⟨⟨⟨⟨⟨⟨h1, h2⟩, h3⟩, h4⟩, h5⟩, h6⟩, h7⟩ := h
    simp [getTrendArrowRotation, h1, h2, h3, h4, h5, h6, h7]
  · intro h
    simp only [recognizedTrend, Bool.or_eq_true] at h
    unfold getTrendArrowRotation
    split_ifs <;> simp_all
  · rw [isDoubleTrendArrow, stringStartsWith, List.isPrefixOf_iff_prefix]
    exact Iff.rfl

/-- C8 witness: the unrecognized code "Blah" yields the sentinel, the
case-variant "fLaT" is recognized and maps into the rotation set, and
"DoubleUp" triggers the secondary glyph. -/
theorem trend_arrow_mapping_witness :
    getTrendArrowRotation "Blah".data = -1 ∧
    (getTrendArrowRotation "fLaT".data = 0 ∨ getTrendArrowRotation "fLaT".data = 45 ∨
     getTrendArrowRotation "fLaT".data = 90 ∨ getTrendArrowRotation "fLaT".data = 135 ∨
     getTrendArrowRotation "fLaT".data = 180) ∧
    isDoubleTrendArrow "DoubleUp".data = true :=
  ⟨(trend_arrow_mapping "Blah".data).2.2.2.1 (by decide),
   (trend_arrow_mapping "fLaT".data).2.2.2.2.1 (by decide),
   ((trend_arrow_mapping "DoubleUp".data).2.2.2.2.2).mpr ⟨"Up".data, by decide⟩⟩

/-- C10: before any reading has ever been accepted (the stored
`lastTimestamp` still holds its 0 sentinel), `updateDisplay` draws only
the "Waiting for data..." message and `updateLED` issues no LED write. -/
theorem no_data_placeholder (nowMs : Nat) (st : AppState) (h : st.lastTimestamp = 0) :
    updateDisplay nowMs st = .waiting ∧ updateLED st = none := by
  simp [updateDisplay, updateLED, h]

/-- C10 witness at the baseline state with the timestamp sentinel. -/
theorem no_data_placeholder_witness :
    updateDisplay 123 { st0 with lastTimestamp := 0 } = .waiting ∧
    updateLED { st0 with lastTimestamp := 0 } = none :=
  no_data_placeholder 123 { st0 with lastTimestamp := 0 } rfl

/-- C1 counterexample: the claim that an `Invalid` (value ≤ 30) data
response leaves *every* stored reading field unchanged is false — at the
`docInvalid` payload (fresh timestamp 222, value 20 ≤ 30) against the
stored reading of `st0`, `fetchData` takes the Invalid branch yet
overwrites `bg` (100 → 20); the resulting state differs from the prior
one. The assignments to `bg`/`delta`/`trend` at lines 316-318 precede the
`bg > 30.0` check at line 319. -/
theorem invalid_value_frame_counterexample :
    (fetchData true (.ok docInvalid) 999 st0).1 = .invalid ∧
    docInvalid.bgnow = some ⟨222, some [⟨20, "SingleDown".data⟩]⟩ ∧
    (222 : Nat) ≠ st0.lastTimestamp ∧
    (20 : ℚ) ≤ 30 ∧
    (fetchData true (.ok docInvalid) 999 st0).2.bg = 20 ∧
    st0.bg = 100 ∧
    (fetchData true (.ok docInvalid) 999 st0).2 ≠ st0 := by
  decide

/-- C1 (amended): for every data response with a fresh timestamp and a
value ≤ 30 mg/dL, `fetchData` takes the sensor-error ("Invalid") branch
and leaves `lastTimestamp` (sourceTimestamp) and `lastUpdate`
(acquiredAt) unchanged — so the staleness clock keeps running from the
prior reading — but it *does* overwrite the stored `bg`, `delta` and
`trend` with the values from the payload. -/
theorem invalid_value_keeps_timestamps (doc : DataDoc) (b : BgNow) (s : Sgv)
    (rest : List Sgv) (nowMs : Nat) (st : AppState)
    (hb : doc.bgnow = some b) (hs : b.sgvs = some (s :: rest))
    (hts : b.mills ≠ st.lastTimestamp) (hval : s.mgdl ≤ 30) :
    fetchData true (.ok doc) nowMs st =
      (.invalid, { st with bg := s.mgdl, delta := doc.deltaMgdl, trend := s.direction }) := by
  have h30 : ¬ s.mgdl > 30 := not_lt.mpr hval
  simp [fetchData, hb, hs, hts, h30]

/-- C1 witness: the amended theorem evaluated at `docInvalid`/`st0`. -/
theorem invalid_value_keeps_timestamps_witness :
    fetchData true (.ok docInvalid) 999 st0 =
      (.invalid, { st0 with bg := 20, delta := -3, trend := "SingleDown".data }) :=
  invalid_value_keeps_timestamps docInvalid ⟨222, some [⟨20, "SingleDown".data⟩]⟩
    ⟨20, "SingleDown".data⟩ [] 999 st0 rfl rfl (by decide) (by decide)

/-- C4: a data response whose `mills` equals the stored
`lastTimestamp` leaves the whole state unchanged (and is reported as the
same snapshot), regardless of the value/delta/trend carried in the same
payload. -/
theorem duplicate_timestamp_unchanged (doc : DataDoc) (b : BgNow) (s : Sgv)
    (rest : List Sgv) (nowMs : Nat) (st : AppState)
    (hb : doc.bgnow = some b) (hs : b.sgvs = some (s :: rest))
    (hts : b.mills = st.lastTimestamp) :
    fetchData true (.ok doc) nowMs st = (.unchanged, st) := by
  simp [fetchData, hb, hs, hts]

/-- C4 witness: `docDuplicate` repeats the timestamp 111 of `st0` while
carrying value 150, delta 7 and trend "DoubleUp", all different from the
stored reading; the state is returned untouched. -/
theorem duplicate_timestamp_unchanged_witness :
    fetchData true (.ok docDuplicate) 999 st0 = (.unchanged, st0) :=
  duplicate_timestamp_unchanged docDuplicate ⟨111, some [⟨150, "DoubleUp".data⟩]⟩
    ⟨150, "DoubleUp".data⟩ [] 999 st0 rfl rfl rfl

/-- C9: `fetchData` reports success exactly when WiFi is up, the HTTP
status is OK, the body parses, and a non-empty `bgnow.sgvs` array is
present — in particular it still returns true on duplicate-timestamp
(Unchanged) and implausible-value (Invalid) payloads, so only transport,
parse and missing-array conditions fail the poll. -/
theorem data_fetch_ok_iff (c : Bool) (resp : HttpResult DataDoc) (nowMs : Nat)
    (st : AppState) :
    fetchDataOk (fetchData c resp nowMs st).1 = (c && hasBgData resp) := by
  cases c with
  | false => simp [fetchData, fetchDataOk]
  | true =>
    cases resp with
    | httpError code => simp [fetchData, fetchDataOk, hasBgData]
    | parseError => simp [fetchData, fetchDataOk, hasBgData]
    | ok doc =>
      cases hb : doc.bgnow with
      | none => simp [fetchData, fetchDataOk, hasBgData, hb]
      | some b =>
        cases hs : b.sgvs with
        | none => simp [fetchData, fetchDataOk, hasBgData, hb, hs]
        | some l =>
          cases l with
          | nil => simp [fetchData, fetchDataOk, hasBgData, hb, hs]
          | cons s rest =>
            simp only [fetchData, hasBgData, hb, hs]
            split_ifs <;> simp_all [fetchDataOk]

/-- C6: a status response missing at least one of the four required
threshold keys (which includes responses with no `settings` or no
`thresholds` object at all) leaves all four stored thresholds exactly as
they were — no partial update, no reset to defaults, no error state. -/
theorem missing_threshold_keys_noop (c : Bool) (doc : StatusDoc) (st : AppState)
    (h : hasAllThresholdKeys doc = false) :
    (fetchStatus c (.ok doc) st).2 = st := by
  cases c with
  | false => simp [fetchStatus]
  | true =>
    cases hsg : doc.settings with
    | none => simp [fetchStatus, hsg]
    | some s =>
      cases hth : s.thresholds with
      | none => simp [fetchStatus, hsg, hth]
      | some th =>
        simp only [hasAllThresholdKeys, hsg, hth] at h
        cases hbh : th.bgHigh <;> cases hbt : th.bgTargetTop <;>
          cases hbb : th.bgTargetBottom <;> cases hbl : th.bgLow <;>
          simp_all [fetchStatus]

/-- C6 witness: `docPartial` carries `bgHigh`, `bgTargetTop`, `bgLow`
but no `bgTargetBottom`; the state is untouched. -/
theorem missing_threshold_keys_noop_witness :
    (fetchStatus true (.ok docPartial) st0).2 = st0 :=
  missing_threshold_keys_noop true docPartial st0 (by decide)

/-- C5 counterexample: the claim that in mmol mode each stored
threshold equals `round(rawValue * 18.0)` fails for the fractional raw
value 10.5 (a value a mmol/L server can send): the code first reads the
field with `as<int>()`, truncating 10.5 to 10, and stores
`round(10 * 18.0) = 180`, while `round(10.5 * 18.0) = 189`. -/
theorem mmol_rounding_counterexample :
    q105 = 21 / 2 ∧
    (fetchStatus true (.ok docMmol) st0).2.highUrgent = 180 ∧
    cRound (q105 * 18) = 189 ∧
    (fetchStatus true (.ok docMmol) st0).2.highUrgent ≠ cRound (q105 * 18) := by
  have hq : q105 = 21 / 2 := by
    rw [q105, Rat.mk'_eq_divInt, Rat.divInt_eq_div]; norm_num
  have h10 : asInt q105 = 10 := by decide
  have heval : (fetchStatus true (.ok docMmol) st0).2.highUrgent =
      cRound ((asInt q105 : ℚ) * 18) := by
    simp [fetchStatus, docMmol, equalsIgnoreCase]
  have h180 : (fetchStatus true (.ok docMmol) st0).2.highUrgent = 180 := by
    rw [heval, h10, cRound_intCast_mul18]; decide
  have h189 : cRound (q105 * 18) = 189 := by
    rw [show q105 * 18 = ((189 : ℤ) : ℚ) by rw [hq]; norm_num, cRound_intCast]
  exact ⟨hq, h180, h189, by rw [h180, h189]; decide⟩

/-- C5 (amended): for every status response containing all four
threshold keys with a case-insensitive "mmol"/"mmol/L" units field, each
stored threshold equals `truncate(rawValue) * 18` — the raw field is
first read with `as<int>()` (truncating toward zero), then multiplied by
18.0 and rounded; the claimed `round(rawValue * 18.0)` holds only when
the raw value is an integer. -/
theorem mmol_thresholds_truncate_then_convert (doc : StatusDoc) (s : Settings)
    (th : Thresholds) (bh btt btb bl : ℚ) (st : AppState)
    (hsg : doc.settings = some s) (hth : s.thresholds = some th)
    (h1 : th.bgHigh = some bh) (h2 : th.bgTargetTop = some btt)
    (h3 : th.bgTargetBottom = some btb) (h4 : th.bgLow = some bl)
    (hu : equalsIgnoreCase s.units "mmol".data = true ∨
          equalsIgnoreCase s.units "mmol/L".data = true) :
    (fetchStatus true (.ok doc) st).1 = true ∧
    (fetchStatus true (.ok doc) st).2 = { st with
      highUrgent := asInt bh * 18, highWarning := asInt btt * 18,
      lowWarning := asInt btb * 18, lowUrgent := asInt bl * 18 } := by
  have hite : (fetchStatus true (.ok doc) st) = (true, { st with
      highUrgent := cRound ((asInt bh : ℚ) * 18),
      highWarning := cRound ((asInt btt : ℚ) * 18),
      lowWarning := cRound ((asInt btb : ℚ) * 18),
      lowUrgent := cRound ((asInt bl : ℚ) * 18) }) := by
    simp only [fetchStatus, hsg, hth, h1, h2, h3, h4]
    rw [if_neg (by simp), if_pos hu]
  rw [hite]
  refine ⟨rfl, ?_⟩
  simp only [cRound_intCast_mul18]

/-- C5 witness: the amended theorem at `docMmol` (raw values 10.5, 9,
4, 3, units "mmol"): stored thresholds 180, 162, 72, 54. -/
theorem mmol_thresholds_truncate_then_convert_witness :
    (fetchStatus true (.ok docMmol) st0).1 = true ∧
    (fetchStatus true (.ok docMmol) st0).2 = { st0 with
      highUrgent := 180, highWarning := 162, lowWarning := 72, lowUrgent := 54 } := by
  have h := mmol_thresholds_truncate_then_convert docMmol
    ⟨some ⟨some q105, some 9, some 4, some 3⟩, "mmol".data⟩
    ⟨some q105, some 9, some 4, some 3⟩ q105 9 4 3 st0
    rfl rfl rfl rfl rfl rfl (Or.inl (by decide))
  exact ⟨h.1, by rw [h.2]; decide⟩

/-! ### Frame lemmas for the two fetches and the poll steps -/

theorem fetchStatus_frame (c : Bool) (resp : HttpResult StatusDoc) (st : AppState) :
    (fetchStatus c resp st).2.lastStatusFetchTime = st.lastStatusFetchTime ∧
    (fetchStatus c resp st).2.lastDataFetchTime = st.lastDataFetchTime ∧
    (fetchStatus c resp st).2.lastDisplayUpdateTime = st.lastDisplayUpdateTime ∧
    (fetchStatus c resp st).2.lastTimestamp = st.lastTimestamp := by
  cases c with
  | false => simp [fetchStatus]
  | true =>
    cases resp with
    | httpError code => simp [fetchStatus]
    | parseError => simp [fetchStatus]
    | ok doc =>
      obtain ⟨s⟩ := doc
      cases s with
      | none => simp [fetchStatus]
      | some s =>
        obtain ⟨ths, units⟩ := s
        cases ths with
        | none => simp [fetchStatus]
        | some th =>
          obtain ⟨bh, btt, btb, bl⟩ := th
          cases bh <;> cases btt <;> cases btb <;> cases bl <;>
            simp [fetchStatus] <;> split_ifs <;> simp

theorem fetchData_frame (c : Bool) (resp : HttpResult DataDoc) (nowMs : Nat)
    (st : AppState) :
    (fetchData c resp nowMs st).2.lastStatusFetchTime = st.lastStatusFetchTime ∧
    (fetchData c resp nowMs st).2.lastDataFetchTime = st.lastDataFetchTime ∧
    (fetchData c resp nowMs st).2.lastDisplayUpdateTime = st.lastDisplayUpdateTime := by
  cases c with
  | false => simp [fetchData]
  | true =>
    cases resp with
    | httpError code => simp [fetchData]
    | parseError => simp [fetchData]
    | ok doc =>
      obtain ⟨bgnow, d⟩ := doc
      cases bgnow with
      | none => simp [fetchData]
      | some b =>
        obtain ⟨mills, sgvs⟩ := b
        cases sgvs with
        | none => simp [fetchData]
        | some l =>
          cases l with
          | nil => simp [fetchData]
          | cons s rest => simp [fetchData] <;> split_ifs <;> simp

/-- The branch `fetchData` takes depends on the prior state only through
`lastTimestamp`. -/
theorem fetchData_result_congr (c : Bool) (resp : HttpResult DataDoc) (nowMs : Nat)
    (st st' : AppState) (h : st.lastTimestamp = st'.lastTimestamp) :
    (fetchData c resp nowMs st).1 = (fetchData c resp nowMs st').1 := by
  cases c with
  | false => simp [fetchData]
  | true =>
    cases resp with
    | httpError code => simp [fetchData]
    | parseError => simp [fetchData]
    | ok doc =>
      obtain ⟨bgnow, d⟩ := doc
      cases bgnow with
      | none => simp [fetchData]
      | some b =>
        obtain ⟨mills, sgvs⟩ := b
        cases sgvs with
        | none => simp [fetchData]
        | some l =>
          cases l with
          | nil => simp [fetchData]
          | cons s rest =>
            simp only [fetchData, h]
            split_ifs <;> rfl

theorem dataDue_congr (t : Nat) {st st' : AppState}
    (h : st.lastDataFetchTime = st'.lastDataFetchTime) :
    dataDue t st = dataDue t st' := by
  simp [dataDue, h]

theorem statusPollStep_timer (t : Nat) (resp : HttpResult StatusDoc) (g : Bool)
    (st : AppState) :
    (statusPollStep t resp g st).1.lastStatusFetchTime =
      (if statusDue t st = true ∧ (fetchStatus true resp st).1 = true then t
       else st.lastStatusFetchTime) := by
  have hf := (fetchStatus_frame true resp st).1
  unfold statusPollStep
  by_cases hd : statusDue t st = true
  · by_cases hok : (fetchStatus true resp st).1 = true
    · simp [hd, hok]
    · simp [hd, hok, hf]
  · simp [hd]

theorem statusPollStep_frame (t : Nat) (resp : HttpResult StatusDoc) (g : Bool)
    (st : AppState) :
    (statusPollStep t resp g st).1.lastDataFetchTime = st.lastDataFetchTime ∧
    (statusPollStep t resp g st).1.lastDisplayUpdateTime = st.lastDisplayUpdateTime ∧
    (statusPollStep t resp g st).1.lastTimestamp = st.lastTimestamp := by
  have hf := fetchStatus_frame true resp st
  unfold statusPollStep
  by_cases hd : statusDue t st = true <;>
    by_cases hok : (fetchStatus true resp st).1 = true <;>
    simp [hd, hok, hf.2.1, hf.2.2.1, hf.2.2.2]

theorem dataPollStep_timer (t : Nat) (resp : HttpResult DataDoc) (nowMs : Nat)
    (g : Bool) (st : AppState) :
    (dataPollStep t resp nowMs g st).1.lastDataFetchTime =
      (if dataDue t st = true ∧ fetchDataOk (fetchData true resp nowMs st).1 = true
       then t else st.lastDataFetchTime) := by
  have hf := (fetchData_frame true resp nowMs st).2.1
  unfold dataPollStep
  by_cases hd : dataDue t st = true
  · by_cases hok : fetchDataOk (fetchData true resp nowMs st).1 = true
    · simp [hd, hok]
    · simp [hd, hok, hf]
  · simp [hd]

theorem dataPollStep_frame (t : Nat) (resp : HttpResult DataDoc) (nowMs : Nat)
    (g : Bool) (st : AppState) :
    (dataPollStep t resp nowMs g st).1.lastStatusFetchTime = st.lastStatusFetchTime ∧
    (dataPollStep t resp nowMs g st).1.lastDisplayUpdateTime = st.lastDisplayUpdateTime := by
  have hf := fetchData_frame true resp nowMs st
  unfold dataPollStep
  by_cases hd : dataDue t st = true <;>
    by_cases hok : fetchDataOk (fetchData true resp nowMs st).1 = true <;>
    simp [hd, hok, hf.1, hf.2.2]

/-- C3 counterexample: on the tick where WiFi has just reconnected,
both poll timers are set to the current time *unconditionally* (lines
113-114 run regardless of the fetch results), so the claim that a failed
fetch leaves its timer untouched on all ticks — including the reconnect
tick — is false: with both fetches failing with HTTP 500, both timers
still advance from 15000 to 20000. -/
theorem reconnect_timer_advance_counterexample :
    fetchDataOk (fetchData true (.httpError 500) 20000 st0).1 = false ∧
    (fetchStatus true (.httpError 500) st0).1 = false ∧
    (loopTick envReconnectFail st0).1.lastDataFetchTime = 20000 ∧
    (loopTick envReconnectFail st0).1.lastStatusFetchTime = 20000 ∧
    st0.lastDataFetchTime ≠ 20000 ∧
    st0.lastStatusFetchTime ≠ 20000 := by
  decide

/-- C3 (amended): on every *connected* tick, each poll timer advances
to the current time exactly when its poll was due and the fetch
succeeded; a failed or skipped fetch leaves the timer untouched (causing
immediate retry next tick). On the tick where WiFi has just reconnected,
however, both timers are set to the current time unconditionally, even
when a fetch failed. -/
theorem poll_timer_advance (env : TickEnv) (st : AppState) :
    (env.wifiConnected = true →
      (loopTick env st).1.lastStatusFetchTime =
        (if statusDue env.currentTime st = true ∧
            (fetchStatus true env.statusResp st).1 = true
         then env.currentTime else st.lastStatusFetchTime) ∧
      (loopTick env st).1.lastDataFetchTime =
        (if dataDue env.currentTime st = true ∧
            fetchDataOk (fetchData true env.dataResp env.dataNowMs st).1 = true
         then env.currentTime else st.lastDataFetchTime)) ∧
    (env.wifiConnected = false → env.wifiAfterConnect = true →
      (loopTick env st).1.lastStatusFetchTime = env.currentTime ∧
      (loopTick env st).1.lastDataFetchTime = env.currentTime) := by
  have hfr := statusPollStep_frame env.currentTime env.statusResp env.garbageStatusFlag st
  constructor
  · intro hconn
    have htimers : (loopTick env st).1.lastStatusFetchTime =
        (dataPollStep env.currentTime env.dataResp env.dataNowMs env.garbageDataFlag
          (statusPollStep env.currentTime env.statusResp env.garbageStatusFlag st).1).1.lastStatusFetchTime ∧
        (loopTick env st).1.lastDataFetchTime =
        (dataPollStep env.currentTime env.dataResp env.dataNowMs env.garbageDataFlag
          (statusPollStep env.currentTime env.statusResp env.garbageStatusFlag st).1).1.lastDataFetchTime := by
      unfold loopTick
      rw [hconn]
      rw [if_neg (show ¬ (true = false) by simp)]
      simp only []
      constructor <;> (split_ifs <;> simp)
    constructor
    · rw [htimers.1,
        (dataPollStep_frame env.currentTime env.dataResp env.dataNowMs env.garbageDataFlag
          (statusPollStep env.currentTime env.statusResp env.garbageStatusFlag st).1).1,
        statusPollStep_timer]
    · rw [htimers.2, dataPollStep_timer,
        dataDue_congr env.currentTime hfr.1,
        fetchData_result_congr true env.dataResp env.dataNowMs
          (statusPollStep env.currentTime env.statusResp env.garbageStatusFlag st).1 st hfr.2.2,
        hfr.1]
  · intro hnc hac
    unfold loopTick
    rw [hnc, hac]
    simp

/-- C3 witness: on the connected tick `envDataOk` (data poll due and
succeeding with a duplicate-timestamp payload, status poll not due), the
data timer advances to 60000 while the status timer stays at 15000. -/
theorem poll_timer_advance_witness :
    (loopTick envDataOk st0).1.lastDataFetchTime = 60000 ∧
    (loopTick envDataOk st0).1.lastStatusFetchTime = 15000 := by
  have h := (poll_timer_advance envDataOk st0).1 rfl
  exact ⟨by rw [h.2]; decide, by rw [h.1]; decide⟩

/-- C2 (code bug): the locals `dataFetchFailed`/`statusFetchFailed`
are read uninitialized whenever a poll is skipped, so whether the render
runs on a tick where both polls are skipped and the display interval has
elapsed is decided by indeterminate stack content, not by the
skipped-counts-as-not-failed rule the specification states: at time 20000
on `st0` (neither poll due, display due), the render runs when the stale
`dataFetchFailed` value happens to be false and is suppressed when it
happens to be true. -/
theorem render_uninitialized_flag_dependence :
    statusDue 20000 st0 = false ∧
    dataDue 20000 st0 = false ∧
    displayDue 20000 st0 = true ∧
    (loopTick (envSkip false) st0).2 = true ∧
    (loopTick (envSkip true) st0).2 = false := by
  decide

end NsThingy
